import Mathlib

/-!
Verification development for the dst-fish-manager operator console.

The Python sources `manager.py` and `dst_tui.py` are shallowly embedded:

* Python strings that undergo parsing are modelled as `List Char` (`Str`),
  so that every string operation is a structural recursion the kernel can
  evaluate; `str` injects Lean string literals.
* External processes (systemctl, journalctl, the updater script, the FIFO,
  the config files, keyboard input) are modelled as oracles collected in an
  `Env` record; one call of a handler consults the oracles it needs.
* Side effects of a handler (spawning a background job, launching the
  updater process, polling the shard snapshot, writing to the FIFO) are
  reified as an explicit `Effect` trace returned next to the new state.
* A Python exception that escapes a function is an `Except.error`.
-/

namespace DST

/-! ## String model -/

/-- Python strings, modelled as lists of characters. -/
abbrev Str := List Char

/-- Injection of a Lean string literal into the model. -/
def str (s : String) : Str := s.toList

/-- Splits at every character satisfying `p`, keeping empty groups
(the groups between two adjacent separators). -/
def splitPred (p : Char → Bool) : Str → List Str
  | [] => [[]]
  | c :: rest =>
    if p c then [] :: splitPred p rest
    else
      match splitPred p rest with
      | [] => [[c]]
      | g :: gs => (c :: g) :: gs

/-- Python `s.split("\n")` / `s.splitlines()` on stripped input: split at
every newline. (Python `splitlines` also drops a trailing empty group and
handles `\r`; all call sites below first strip the input or filter empty
lines, where the two agree.) -/
def splitLines (l : Str) : List Str := splitPred (fun c => c = '\n') l

/-- Python `s.split()`: split on whitespace runs, no empty groups. -/
def splitWs (l : Str) : List Str :=
  (splitPred Char.isWhitespace l).filter (fun g => !g.isEmpty)

/-- Python `s.strip()`: drop leading and trailing whitespace. -/
def strip (l : Str) : Str :=
  ((l.dropWhile Char.isWhitespace).reverse.dropWhile Char.isWhitespace).reverse

/-! ## Data model (`manager.py`) -/

/-- One server shard, as built by `Manager.get_shards` (`manager.py`,
class `Shard`): a name plus the observed running/enabled flags. -/
structure Shard where
  name : Str
  is_running : Bool
  is_enabled : Bool
deriving DecidableEq, Repr

instance : Inhabited Shard := ⟨⟨[], false, false⟩⟩

/-- The full systemd unit name of a shard (`Shard.unit_name`):
`dontstarve@NAME.service`. -/
def unit_name (name : Str) : Str := str "dontstarve@" ++ name ++ str ".service"

/-- Outcome of one `subprocess.run(["systemctl", "--user", *args], ...)`
call: either the process ran (with a return code, stdout and stderr) or
the executable was missing (`FileNotFoundError`). -/
inductive ExecOutcome where
  | ok (returncode : Int) (stdout stderr : Str)
  | notFound
deriving DecidableEq, Repr

/-- The external world the embedded code consults.  Every field is the
answer an external resource gives during the step being modelled. -/
structure Env where
  /-- Result of `systemctl --user <args>` for the given argument list. -/
  systemctl : List Str → ExecOutcome
  /-- Content of `shards.conf`; `none` when the file does not exist. -/
  shardsFileContent : Option Str
  /-- Text returned by `Manager.get_logs` for a shard name and a line
  count (journalctl stdout on success, stderr or the not-found message
  otherwise — all branches of that function return a plain string). -/
  journalctl : Str → Nat → Str
  /-- Whether the updater script next to the TUI script is a file. -/
  updaterLocalIsFile : Bool
  /-- Whether that local updater script is executable. -/
  updaterLocalIsExecutable : Bool
  /-- Whether the fallback updater script in the home directory is a file. -/
  updaterHomeIsFile : Bool
  /-- Whether the console FIFO of the named shard exists. -/
  fifoExists : Str → Bool
  /-- Error raised while writing the named FIFO, `none` when the write
  succeeds. -/
  fifoWriteError : Str → Option Str
  /-- The chat message gathered from the popup text box. -/
  chatInput : Str
  /-- Whether the 2-second reconciliation timer has expired this
  iteration (`current_time - last_refresh_time > 2.0`). -/
  refreshDue : Bool

/-- Embedding of `Manager._run_systemctl_command`: run
`systemctl --user <args>`, returning `(returncode == 0, stdout.strip(),
stderr.strip())`; a `FileNotFoundError` is caught and degrades to
`(False, "", "systemctl command not found.")`. -/
def run_systemctl_command (env : Env) (args : List Str) : Bool × Str × Str :=
  match env.systemctl args with
  | ExecOutcome.ok rc out err => (rc == 0, strip out, strip err)
  | ExecOutcome.notFound => (false, [], str "systemctl command not found.")

/-- Embedding of `Manager.read_desired_shards`: `[]` when `shards.conf`
is missing, otherwise the stripped, non-empty, non-comment lines in file
order. -/
def read_desired_shards (env : Env) : List Str :=
  match env.shardsFileContent with
  | none => []
  | some content =>
    ((splitLines content).map strip).filter
      (fun l => !l.isEmpty && !((str "#").isPrefixOf l))

/-- Argument list built inside `Manager._get_systemd_instances` for a
given systemctl command and state filter. -/
def instance_args (command state_filter : Str) : List Str :=
  let args := [command, str "--no-legend", str "dontstarve@*.service"]
  if command = str "list-units" then args ++ [str "--state", state_filter] else args

/-- Embedding of `Manager._get_systemd_instances`: query systemctl and
collect the shard names of the reported units.  A failed query degrades
to the empty collection.  (Python accumulates into a `set`; only
membership in the result is ever used, so a list in scan order is an
adequate model.) -/
def get_systemd_instances (env : Env) (command state_filter : Str) : List Str :=
  let res := run_systemctl_command env (instance_args command state_filter)
  if !res.1 then []
  else
    (splitLines res.2.1).foldl
      (fun instances line =>
        let parts := splitWs line
        match parts with
        | [] => instances
        | unit_file :: rest =>
          if command = str "list-unit-files" ∧ rest.length > 0
              ∧ rest.getD 0 [] ≠ state_filter then
            instances
          else if (str "dontstarve@").isPrefixOf unit_file
              ∧ (str ".service").isSuffixOf unit_file then
            let start := (str "dontstarve@").length
            let stop := unit_file.length - (str ".service").length
            let shard_name := (unit_file.drop start).take (stop - start)
            if !shard_name.isEmpty then instances ++ [shard_name] else instances
          else instances)
      []

/-- Embedding of `Manager.get_shards`: one `Shard` per desired name, in
the declared order of `shards.conf`, flags taken by membership in the two
systemd queries.  The Python loop appends to a list; we fold the same
way. -/
def get_shards (env : Env) : List Shard :=
  let desired := read_desired_shards env
  let enabled := get_systemd_instances env (str "list-unit-files") (str "enabled")
  let running := get_systemd_instances env (str "list-units") (str "active")
  desired.foldl
    (fun shards name =>
      shards ++ [{ name := name,
                   is_running := running.contains name,
                   is_enabled := enabled.contains name }])
    []

/-- Embedding of `Manager.control_shard`: one systemctl call
`[action, unit_name]` for the shard. -/
def control_shard (env : Env) (shard_name action : Str) : Bool × Str × Str :=
  run_systemctl_command env [action, unit_name shard_name]

/-- Embedding of `Manager.control_all_shards`: the Python function loops
over the list calling `control_shard` for each shard and returns `None`;
its observable behaviour is the sequence of systemctl invocations, so we
return the trace of (argument list, result) pairs in call order.
`control_shard` never raises (the `FileNotFoundError` is caught inside
`_run_systemctl_command`), so the loop always reaches every shard. -/
def control_all_shards (env : Env) (action : Str) (shard_list : List Shard) :
    List (List Str × (Bool × Str × Str)) :=
  shard_list.foldl
    (fun trace shard =>
      trace ++ [([action, unit_name shard.name], control_shard env shard.name action)])
    []

/-- Embedding of `Manager.get_logs`: every branch (journalctl stdout,
its stderr, or the not-found message) returns a plain string, supplied by
the oracle. -/
def get_logs (env : Env) (shard_name : Str) (lines : Nat) : Str :=
  env.journalctl shard_name lines

/-- Embedding of `Manager.run_updater`: pick the updater script next to
the TUI when it is an executable file, else fall back to the home-directory
location; raise `FileNotFoundError` when the chosen path is not a file;
otherwise `subprocess.Popen` launches the process and returns immediately
— the call does NOT wait for the process to finish. -/
def run_updater (env : Env) : Except Str Unit :=
  let useLocal := env.updaterLocalIsFile && env.updaterLocalIsExecutable
  let pathIsFile := if useLocal then env.updaterLocalIsFile else env.updaterHomeIsFile
  if !pathIsFile then Except.error (str "Updater script not found")
  else Except.ok ()

/-- Reified side effects of the handlers. `waitUpdater` is the
`proc.wait()` performed by the `update` command of the manager CLI
(`manager.py` `__main__` block); the TUI never emits it. -/
inductive Effect where
  | spawnControlAll (action : Str) (shards : List Shard)
  | spawnControlShard (name action : Str)
  | popenUpdater
  | waitUpdater
  | pollShards
  | fetchLogs (name : Str) (lines : Nat)
  | fifoWrite (name content : Str)
deriving DecidableEq, Repr

/-- Embedding of `Manager.send_command`: non-`Master` targets are
rejected up front; a missing FIFO is reported; otherwise the command plus
a newline is written to the FIFO (an error during the write is caught and
reported).  The second component is the trace of FIFO writes performed.
(Python quotes the shard name inside its messages; the quotes are elided
here.) -/
def send_command (env : Env) (shard_name command : Str) : (Bool × Str) × List Effect :=
  if shard_name ≠ str "Master" then
    ((false, str "Commands can only be sent to the Master shard."), [])
  else if !(env.fifoExists shard_name) then
    ((false, str "FIFO for shard " ++ shard_name ++ str " not found"), [])
  else
    match env.fifoWriteError shard_name with
    | none =>
      ((true, str "Command sent successfully."),
        [Effect.fifoWrite shard_name (command ++ [Char.ofNat 10])])
    | some e => ((false, str "Failed to write to FIFO: " ++ e), [])

/-- Embedding of `Manager.send_chat_message`: non-`Master` targets are
rejected; otherwise the message is wrapped in `c_announce("...")` and
delegated to `send_command`. -/
def send_chat_message (env : Env) (shard_name message : Str) : (Bool × Str) × List Effect :=
  if shard_name ≠ str "Master" then
    ((false, str "Chat messages can only be sent to the Master shard."), [])
  else
    send_command env shard_name (str "c_announce(\x22" ++ message ++ str "\x22)")

/-- Embedding of the `update` branch of the manager CLI (`manager.py`
`__main__` block): it launches the updater and then `proc.wait()`s for
completion — the synchronous-to-completion behaviour, for contrast with
the TUI handler. -/
def cli_update (env : Env) : Except Str (List Effect) :=
  match run_updater env with
  | Except.error e => Except.error e
  | Except.ok _ => Except.ok [Effect.popenUpdater, Effect.waitUpdater]

/-! ## UI model (`dst_tui.py`) -/

/-- The mutable fields of `NcursesApp` that the input/render loop reads
and writes (window handles and colour state carry no logic and are
omitted). `selected_global_action_idx = -1` is the "grid unset"
sentinel, exactly as in the Python. -/
structure AppState where
  shards : List Shard
  selected_shard_idx : Int
  selected_action_idx : Int
  selected_global_action_idx : Int
  log_viewer_active : Bool
  log_content : List Str
  log_scroll_pos : Int
  is_working : Bool
deriving DecidableEq, Repr

/-- The field values set by `NcursesApp.__init__`. -/
def initState : AppState :=
  { shards := []
    selected_shard_idx := 0
    selected_action_idx := 0
    selected_global_action_idx := -1
    log_viewer_active := false
    log_content := []
    log_scroll_pos := 0
    is_working := false }

/-- The key events the main loop distinguishes (`run` and
`handle_main_input`).  `other` stands for any other `getch` result,
including `-1` (no input). -/
inductive Key where
  | down
  | up
  | left
  | right
  | enter
  | keyE
  | keyC
  | keyQ
  | esc
  | resize
  | other
deriving DecidableEq, Repr

/-- Embedding of the four arrow-key branches of
`NcursesApp.handle_main_input` (`dst_tui.py` lines 161-201).  The Python
`%` on ints is `Int.emod`, which Lean's `%` on `Int` matches (result
non-negative for the positive moduli 4 and 6 used here). -/
def handle_nav (s : AppState) (k : Key) : AppState :=
  match k with
  | Key.down =>
    if s.selected_global_action_idx ≠ -1 then
      if s.selected_global_action_idx ≥ 4 then s
      else { s with selected_global_action_idx := s.selected_global_action_idx + 2 }
    else if ¬ s.shards.isEmpty ∧ s.selected_shard_idx = (s.shards.length : Int) - 1 then
      { s with selected_global_action_idx := 0 }
    else if ¬ s.shards.isEmpty then
      { s with selected_shard_idx := s.selected_shard_idx + 1 }
    else s
  | Key.up =>
    if s.selected_global_action_idx ≠ -1 then
      if s.selected_global_action_idx < 2 then
        { s with selected_global_action_idx := -1 }
      else
        { s with selected_global_action_idx := s.selected_global_action_idx - 2 }
    else
      { s with selected_shard_idx := max 0 (s.selected_shard_idx - 1) }
  | Key.right =>
    if s.selected_global_action_idx ≠ -1 then
      { s with selected_global_action_idx := (s.selected_global_action_idx + 1) % 6 }
    else
      { s with selected_action_idx := (s.selected_action_idx + 1) % 4 }
  | Key.left =>
    if s.selected_global_action_idx ≠ -1 then
      { s with selected_global_action_idx := (s.selected_global_action_idx - 1) % 6 }
    else
      { s with selected_action_idx := (s.selected_action_idx - 1) % 4 }
  | _ => s

/-- Python list indexing `lst[i]` as used at `dst_tui.py` lines 218, 232,
234 and 280: a negative index counts from the end of the list, and an
index outside `[-len, len)` raises an `IndexError` that nothing in the
TUI catches.  (The `default` of `getD` is unreachable: both branches
guard the index into range.) -/
def pyGet {α : Type} [Inhabited α] (l : List α) (i : Int) : Except Str α :=
  if 0 ≤ i ∧ i < (l.length : Int) then Except.ok (l.getD i.toNat default)
  else if 0 ≤ i + (l.length : Int) ∧ i < 0 then
    Except.ok (l.getD (i + (l.length : Int)).toNat default)
  else Except.error (str "IndexError: list index out of range")

/-- The global-action labels of `execute_action`, in grid order. -/
def global_actions : List Str :=
  [str "start", str "stop", str "enable", str "disable", str "restart", str "update"]

/-- The per-shard action labels of `execute_action`, in cursor order. -/
def shard_actions : List Str :=
  [str "start", str "stop", str "restart", str "logs"]

/-- Embedding of `NcursesApp.execute_action`.  An `is_working` state
returns at once with no effect.  A focused global cell indexes
`global_actions` (Python indexing — out of range raises); `update` runs
`run_updater` inline on the main loop (its `FileNotFoundError`
propagates as `Except.error`) and then re-polls the snapshot inline;
every other global action is handed to `run_in_background` (reified as
`spawnControlAll`).  With the grid unset, the shard at the remembered
row is fetched by Python indexing — a stale out-of-range
`selected_shard_idx` over a non-empty list raises an uncaught
`IndexError` — then the row's action is looked up the same way; `logs`
fills the static log buffer and enters the viewer; the rest spawn a
single-shard background job. -/
def execute_action (env : Env) (s : AppState) : Except Str (AppState × List Effect) :=
  if s.is_working then Except.ok (s, [])
  else if s.selected_global_action_idx ≠ -1 then
    match pyGet global_actions s.selected_global_action_idx with
    | Except.error e => Except.error e
    | Except.ok action =>
      if action = str "update" then
        match run_updater env with
        | Except.error e => Except.error e
        | Except.ok _ =>
          Except.ok ({ s with shards := get_shards env },
            [Effect.popenUpdater, Effect.pollShards])
      else Except.ok (s, [Effect.spawnControlAll action s.shards])
  else if s.shards.isEmpty then Except.ok (s, [])
  else
    match pyGet s.shards s.selected_shard_idx with
    | Except.error e => Except.error e
    | Except.ok shard =>
      match pyGet shard_actions s.selected_action_idx with
      | Except.error e => Except.error e
      | Except.ok action =>
        if action = str "logs" then
          Except.ok ({ s with
              log_content := splitLines (get_logs env shard.name 200)
              log_viewer_active := true
              log_scroll_pos := 0 },
            [Effect.fetchLogs shard.name 200])
        else Except.ok (s, [Effect.spawnControlShard shard.name action])

/-- Embedding of `NcursesApp.execute_toggle_enable`: rejected while a
job is in flight, while the global grid is focused, or with no shards;
otherwise the shard at the remembered row is fetched by Python indexing
(a stale out-of-range `selected_shard_idx` raises an uncaught
`IndexError`) and `enable`/`disable` is spawned, inverted from the
shard's current flag. -/
def execute_toggle_enable (_env : Env) (s : AppState) :
    Except Str (AppState × List Effect) :=
  if s.is_working ∨ s.selected_global_action_idx ≠ -1 ∨ s.shards.isEmpty then
    Except.ok (s, [])
  else
    match pyGet s.shards s.selected_shard_idx with
    | Except.error e => Except.error e
    | Except.ok shard =>
      let action := if shard.is_enabled then str "disable" else str "enable"
      Except.ok (s, [Effect.spawnControlShard shard.name action])

/-- Embedding of `NcursesApp.prompt_for_chat`: the popup gathers a
message (oracle `chatInput`), strips it, and when non-empty sends it to
the `Master` shard.  The curses popup drawing itself touches no model
state. -/
def prompt_for_chat (env : Env) (s : AppState) : AppState × List Effect :=
  let message := strip env.chatInput
  if !message.isEmpty then (s, (send_chat_message env (str "Master") message).2)
  else (s, [])

/-- Embedding of `NcursesApp.handle_main_input` as a whole: arrows
navigate, ENTER commits, `e` toggles enable, `c` opens the chat prompt,
anything else is ignored.  Only `execute_action` and
`execute_toggle_enable` can raise. -/
def handle_main_input (env : Env) (s : AppState) (k : Key) :
    Except Str (AppState × List Effect) :=
  match k with
  | Key.down | Key.up | Key.right | Key.left => Except.ok (handle_nav s k, [])
  | Key.enter => execute_action env s
  | Key.keyE => execute_toggle_enable env s
  | Key.keyC => Except.ok (prompt_for_chat env s)
  | _ => Except.ok (s, [])

/-- Result of one background job (`NcursesApp.run_in_background`): the
state after the worker thread finishes, how many snapshot polls the
worker performed, and the exception (if any) that escaped the wrapped
operation.  Such an exception dies with the daemon thread; it is never
re-raised on the main loop. -/
structure WorkerOutcome where
  state : AppState
  polls : Nat
  thread_exn : Option Str
deriving Repr

/-- Embedding of the `worker` closure in `NcursesApp.run_in_background`:
set `is_working`, run the wrapped operation (`op` is its outcome), and in
a `finally` block re-poll the snapshot and clear `is_working` — on the
success path and on the raise path alike. -/
def run_in_background_worker (env : Env) (s : AppState) (op : Except Str Unit) :
    WorkerOutcome :=
  let s1 := { s with is_working := true }
  match op with
  | Except.ok _ =>
    { state := { s1 with shards := get_shards env, is_working := false }
      polls := 1
      thread_exn := none }
  | Except.error e =>
    { state := { s1 with shards := get_shards env, is_working := false }
      polls := 1
      thread_exn := some e }

/-- Embedding of the log-viewer key branch of `NcursesApp.run`
(`dst_tui.py` lines 140-146): DOWN increments the scroll offset with no
upper bound, UP decrements clamped at 0, LEFT leaves the viewer. -/
def log_viewer_input (s : AppState) (k : Key) : AppState :=
  if k = Key.down then { s with log_scroll_pos := s.log_scroll_pos + 1 }
  else if k = Key.up then { s with log_scroll_pos := max 0 (s.log_scroll_pos - 1) }
  else if k = Key.left then { s with log_viewer_active := false }
  else s

/-- Embedding of `NcursesApp.draw` restricted to its effect on the model:
`draw` only reads the state (it writes solely to curses windows), so the
returned state is the input state — in particular no field, and no scroll
offset, is ever reassigned during a render.  The second component is the
log-viewer pane content: for screen rows `i = 1 .. lh-2` the line at
index `log_scroll_pos + i - 1` is painted iff that index is below the
buffer length (and the pane is wider than 2), truncated to the pane
width; rows whose index runs past the buffer are simply left blank.  The
chat branch (viewer inactive) reads the chat log oracle and paints it,
touching no model state; it is not needed by any claim and is rendered
here as the empty pane. -/
def draw (s : AppState) (lh lw : Nat) : AppState × List (Nat × Str) :=
  let painted :=
    if s.log_viewer_active then
      (List.range (lh - 2)).filterMap
        (fun i0 =>
          let i : Nat := i0 + 1
          let idx : Int := s.log_scroll_pos + (i : Int) - 1
          if idx < (s.log_content.length : Int) ∧ lw > 2 then
            some (i, (s.log_content.getD idx.toNat []).take (lw - 2))
          else none)
    else []
  (s, painted)

instance {ε α : Type} [DecidableEq ε] [DecidableEq α] : DecidableEq (Except ε α) :=
  fun x y =>
    match x, y with
    | Except.ok a, Except.ok b =>
      if h : a = b then isTrue (by rw [h])
      else isFalse (by intro hc; cases hc; exact h rfl)
    | Except.error a, Except.error b =>
      if h : a = b then isTrue (by rw [h])
      else isFalse (by intro hc; cases hc; exact h rfl)
    | Except.ok _, Except.error _ => isFalse (by intro hc; cases hc)
    | Except.error _, Except.ok _ => isFalse (by intro hc; cases hc)

/-- Result of one main-loop iteration: keep looping with a new state, or
leave the loop (the `break` on the quit key). -/
inductive StepOut where
  | cont (s : AppState) (effs : List Effect)
  | quit (s : AppState)
deriving DecidableEq, Repr

/-- Embedding of one iteration of the `while True` body of
`NcursesApp.run` (after the `draw`/`getch`): `q`/Esc close the viewer or
break the loop; a resize only rebuilds windows; viewer-active keys scroll;
otherwise `handle_main_input` runs and, when the 2-second timer expired
and the viewer is not active, the snapshot is re-polled.  An exception
out of `handle_main_input` propagates out of `run` (nothing in the loop
catches it). -/
def run_step (env : Env) (s : AppState) (k : Key) : Except Str StepOut :=
  if k = Key.keyQ ∨ k = Key.esc then
    if s.log_viewer_active then
      Except.ok (StepOut.cont { s with log_viewer_active := false } [])
    else Except.ok (StepOut.quit s)
  else if k = Key.resize then Except.ok (StepOut.cont s [])
  else
    let handled : Except Str (AppState × List Effect) :=
      if s.log_viewer_active then Except.ok (log_viewer_input s k, [])
      else handle_main_input env s k
    match handled with
    | Except.error e => Except.error e
    | Except.ok (s1, effs) =>
      let s2 :=
        if env.refreshDue ∧ ¬ s1.log_viewer_active then
          { s1 with shards := get_shards env }
        else s1
      Except.ok (StepOut.cont s2 effs)

/-! ## Concrete environments used by witnesses and scenarios -/

/-- A bare environment: no config file, systemctl missing, no updater
script, no FIFO, no chat input, timer not due. -/
def env0 : Env :=
  { systemctl := fun _ => ExecOutcome.notFound
    shardsFileContent := none
    journalctl := fun _ _ => []
    updaterLocalIsFile := false
    updaterLocalIsExecutable := false
    updaterHomeIsFile := false
    fifoExists := fun _ => false
    fifoWriteError := fun _ => none
    chatInput := []
    refreshDue := false }

/-- The systemctl oracle of the spec scenario: both `Master` and `Caves`
unit files enabled, only `Master` active. -/
def scenario_systemctl (args : List Str) : ExecOutcome :=
  if args = [str "list-unit-files", str "--no-legend", str "dontstarve@*.service"] then
    ExecOutcome.ok 0
      (str "dontstarve@Master.service enabled\ndontstarve@Caves.service enabled") []
  else if args = [str "list-units", str "--no-legend", str "dontstarve@*.service",
      str "--state", str "active"] then
    ExecOutcome.ok 0
      (str "dontstarve@Master.service loaded active running DST shard Master") []
  else ExecOutcome.ok 1 [] []

/-- The spec scenario environment: desired shards `Master`, `Caves`
(in that declared order), both enabled, only `Master` running. -/
def scenario_env : Env :=
  { env0 with
    systemctl := scenario_systemctl
    shardsFileContent := some (str "Master\nCaves") }

/-- An environment whose only feature is a present updater script (the
fallback location in the home directory). -/
def env_with_updater : Env := { env0 with updaterHomeIsFile := true }

/-- The state reached when the operator has focused the `Update` cell of
the global grid (index 5) with no job in flight. -/
def stateOnUpdate : AppState :=
  { initState with selected_global_action_idx := 5 }

/-- The scenario state: snapshot from `scenario_env`, cursor on the last
shard row (index 1), grid unset. -/
def stateLastRow : AppState :=
  { initState with shards := get_shards scenario_env, selected_shard_idx := 1 }

/-- A log-viewer state holding a one-line static buffer. -/
def stateViewer : AppState :=
  { initState with log_viewer_active := true, log_content := [str "only line"] }

/-- A state with a background job in flight. -/
def stateBusy : AppState := { initState with is_working := true }

/-- A state with a stale cursor: the snapshot holds the two scenario
shards but the remembered row index is 5 — as after a refresh shrank the
shard list under the cursor. -/
def stateStaleIdx : AppState :=
  { initState with shards := get_shards scenario_env, selected_shard_idx := 5 }

/-! ## Properties -/

/-- The valid-selection invariant of the spec (section 3): the remembered
shard row is always inside `[0, shardCount)` and the global-grid cursor is
either the unset sentinel `-1` or inside `[0, 6)`.  The focus of the claim
is the shard row when the grid is unset and the grid cell otherwise, so
this invariant puts the focus inside the union of Region A rows
`0..shardCount-1`, Region B cells `0..5` and "Region B unset". -/
abbrev SelInv (n : Nat) (s : AppState) : Prop :=
  0 ≤ s.selected_shard_idx ∧ s.selected_shard_idx < (n : Int)
  ∧ (s.selected_global_action_idx = -1
    ∨ (0 ≤ s.selected_global_action_idx ∧ s.selected_global_action_idx < 6))

/-- Following the claim C2 spec words: the log-viewer scroll offset lies
in `[0, max(0, lineCount - viewportHeight)]`. -/
abbrev scroll_offset_clamped (s : AppState) (viewH : Nat) : Prop :=
  0 ≤ s.log_scroll_pos
  ∧ s.log_scroll_pos ≤ max 0 ((s.log_content.length : Int) - (viewH : Int))

/-- Following the claim C8 spec words: an effect trace runs the updater
"synchronously to completion" iff it both launches the updater process
and waits on it before returning (as the manager CLI path `cli_update`
does). -/
abbrev runs_updater_to_completion (effs : List Effect) : Prop :=
  Effect.popenUpdater ∈ effs ∧ Effect.waitUpdater ∈ effs

/-! ## Theorems -/

/-- Arrow-key handling never touches the shard snapshot. -/
theorem handle_nav_shards (s : AppState) (k : Key) : (handle_nav s k).shards = s.shards := by
  cases k <;> simp only [handle_nav] <;> split_ifs <;> rfl

/-- One DOWN or UP keypress preserves the valid-selection invariant. -/
theorem handle_nav_selinv (s : AppState) (k : Key) (hk : k = Key.down ∨ k = Key.up)
    (h : SelInv s.shards.length s) :
    SelInv (handle_nav s k).shards.length (handle_nav s k) := by
  obtain ⟨h1, h2, h3⟩ := h
  rcases hk with rfl | rfl <;>
    simp only [handle_nav] <;>
    split_ifs <;>
    simp only [SelInv] <;>
    simp only [List.isEmpty_iff, ← List.length_pos, true_or, or_true, true_and,
      and_true] at * <;>
    omega

/-- Claim C1: starting from any valid selection state, a sequence of
DOWN/UP inputs through `handle_main_input`'s arrow branches keeps the
focus inside the union of Region A rows `0..shardCount-1`, Region B
cells `0..5` and "Region B unset"; no transition produces an
out-of-range shard or grid index. -/
theorem C1_nav_updown_invariant (s : AppState) (ks : List Key)
    (hks : ∀ k ∈ ks, k = Key.down ∨ k = Key.up)
    (h : SelInv s.shards.length s) :
    SelInv (ks.foldl handle_nav s).shards.length (ks.foldl handle_nav s) := by
  induction ks generalizing s with
  | nil => exact h
  | cons k ks ih =>
    simp only [List.foldl_cons]
    exact ih _ (fun x hx => hks x (List.mem_cons_of_mem _ hx))
      (handle_nav_selinv s k (hks k (List.mem_cons_self _ _)) h)

/-- Witness for C1: the spec scenario — two shards, cursor on the last
row, DOWN twice then UP twice. -/
theorem C1_witness :
    (∀ k ∈ [Key.down, Key.down, Key.up, Key.up], k = Key.down ∨ k = Key.up)
    ∧ SelInv stateLastRow.shards.length stateLastRow
    ∧ SelInv ([Key.down, Key.down, Key.up, Key.up].foldl handle_nav stateLastRow).shards.length
        ([Key.down, Key.down, Key.up, Key.up].foldl handle_nav stateLastRow) :=
  ⟨by decide, by decide,
    C1_nav_updown_invariant stateLastRow [Key.down, Key.down, Key.up, Key.up]
      (by decide) (by decide)⟩

/-- One log-viewer keypress keeps the scroll offset non-negative. -/
theorem log_viewer_input_nonneg (s : AppState) (k : Key)
    (h : 0 ≤ s.log_scroll_pos) : 0 ≤ (log_viewer_input s k).log_scroll_pos := by
  simp only [log_viewer_input]
  split_ifs <;> (try dsimp only) <;> omega

/-- Counterexample to claim C2 as stated: from a one-line log buffer and
offset 0, three DOWN scroll inputs then a render on a 7-row pane
(viewport height 5) leave the offset at 3, outside
`[0, max(0, 1 - 5)] = [0, 0]` — `draw` does not clamp it. -/
theorem C2_counterexample :
    (draw ((List.replicate 3 Key.down).foldl log_viewer_input stateViewer) 7 40).1.log_scroll_pos = 3
    ∧ ¬ scroll_offset_clamped
        (draw ((List.replicate 3 Key.down).foldl log_viewer_input stateViewer) 7 40).1 5 := by
  decide

/-- Claim C2 (amended): after any sequence of log-viewer scroll inputs
and a render, the offset is bounded below by 0 (UP clamps at 0, DOWN
only increments) but has no upper clamp: `draw` returns the state — and
so the offset — unchanged, merely painting no line for indices past the
end of the buffer. -/
theorem C2_amended (s : AppState) (ks : List Key) (lh lw : Nat)
    (h0 : 0 ≤ s.log_scroll_pos) :
    (draw (ks.foldl log_viewer_input s) lh lw).1 = ks.foldl log_viewer_input s
    ∧ 0 ≤ (ks.foldl log_viewer_input s).log_scroll_pos := by
  refine ⟨rfl, ?_⟩
  induction ks generalizing s with
  | nil => exact h0
  | cons k ks ih =>
    simp only [List.foldl_cons]
    exact ih _ (log_viewer_input_nonneg s k h0)

/-- Witness for C2 (amended): the counterexample state, three DOWN
scrolls, a 7-by-40 render. -/
theorem C2_amended_witness :
    0 ≤ stateViewer.log_scroll_pos
    ∧ ((draw ((List.replicate 3 Key.down).foldl log_viewer_input stateViewer) 7 40).1
        = (List.replicate 3 Key.down).foldl log_viewer_input stateViewer
      ∧ 0 ≤ ((List.replicate 3 Key.down).foldl log_viewer_input stateViewer).log_scroll_pos) :=
  ⟨by decide, C2_amended stateViewer (List.replicate 3 Key.down) 7 40 (by decide)⟩

/-- Claim C3: while `is_working` is set, both job-submitting handlers
(`execute_action`, covering per-shard start/stop/restart and every
global action including update, and the enable-toggle shortcut
`execute_toggle_enable`) return the state unchanged — `is_working`
included — with no effect: no background job spawned, no updater launch,
no supervisor call, no poll. -/
theorem C3_busy_rejected (env : Env) (s : AppState) (h : s.is_working = true) :
    execute_action env s = Except.ok (s, [])
    ∧ execute_toggle_enable env s = Except.ok (s, []) := by
  constructor
  · simp only [execute_action, h, if_pos]
  · simp [execute_toggle_enable, h]

/-- Witness for C3: the busy state and the bare environment. -/
theorem C3_witness :
    stateBusy.is_working = true
    ∧ (execute_action env0 stateBusy = Except.ok (stateBusy, [])
      ∧ execute_toggle_enable env0 stateBusy = Except.ok (stateBusy, [])) :=
  ⟨rfl, C3_busy_rejected env0 stateBusy rfl⟩

/-- Claim C4: whatever the wrapped operation does — return normally or
raise — the background worker performs exactly one fresh snapshot poll,
ends with `is_working = false`, installs the polled snapshot, and leaves
the main-loop-visible state identical on the success and failure paths;
the escaped exception is only recorded on the dying daemon thread
(`thread_exn`), never re-raised into the main loop. -/
theorem C4_worker_always_cleans_up (env : Env) (s : AppState) (op : Except Str Unit) :
    (run_in_background_worker env s op).polls = 1
    ∧ (run_in_background_worker env s op).state.is_working = false
    ∧ (run_in_background_worker env s op).state.shards = get_shards env
    ∧ (run_in_background_worker env s op).state
        = (run_in_background_worker env s (Except.ok ())).state := by
  cases op <;> exact ⟨rfl, rfl, rfl, rfl⟩

/-- Folding list-append over a list is `map`: the shape of the
accumulate-by-append loops in `get_shards` and `control_all_shards`. -/
theorem foldl_append_map {α β : Type} (f : α → β) (l : List α) (acc : List β) :
    l.foldl (fun bs a => bs ++ [f a]) acc = acc ++ l.map f := by
  induction l generalizing acc with
  | nil => simp
  | cons a l ih => simp [ih]

/-- The snapshot is the desired list mapped through the two membership
queries. -/
theorem get_shards_eq_map (env : Env) :
    get_shards env = (read_desired_shards env).map (fun name =>
      { name := name
        is_running := (get_systemd_instances env (str "list-units") (str "active")).contains name
        is_enabled :=
          (get_systemd_instances env (str "list-unit-files") (str "enabled")).contains name }) := by
  simp only [get_shards]
  rw [foldl_append_map]
  simp

/-- Claim C5: `get_shards` returns exactly one record per desired name,
in the declared order of the desired list (its name projection IS the
desired list), with `is_enabled` iff the name is a member of the
enabled query result and `is_running` iff it is a member of the running
query result; and on the spec scenario (desired `Master`, `Caves`, both
enabled, only `Master` active) it returns exactly
`[{Master, running, enabled}, {Caves, stopped, enabled}]` in that
order. -/
theorem C5_snapshot_order_membership :
    (∀ env : Env,
      (get_shards env).map Shard.name = read_desired_shards env
      ∧ ∀ sh ∈ get_shards env,
          (sh.is_enabled = true
            ↔ sh.name ∈ get_systemd_instances env (str "list-unit-files") (str "enabled"))
          ∧ (sh.is_running = true
            ↔ sh.name ∈ get_systemd_instances env (str "list-units") (str "active")))
    ∧ get_shards scenario_env =
        [{ name := str "Master", is_running := true, is_enabled := true },
         { name := str "Caves", is_running := false, is_enabled := true }] := by
  refine ⟨fun env => ⟨?_, ?_⟩, by decide⟩
  · rw [get_shards_eq_map]
    simp [List.map_map, Function.comp_def]
  · intro sh hsh
    rw [get_shards_eq_map] at hsh
    simp only [List.mem_map] at hsh
    obtain ⟨nm, _, rfl⟩ := hsh
    simp [List.contains]

/-- Claim C6: when a membership query's systemctl invocation fails
(tool missing or a non-zero exit — both make the first component of
`run_systemctl_command` false), the queried membership collection
degrades to empty instead of raising, so every shard of the snapshot
shows `is_enabled = false` when the enabled query failed, and
`is_running = false` when the running query failed.  (All functions
involved are total: no exception can reach the caller.) -/
theorem C6_failed_query_degrades (env : Env) (command state_filter : Str)
    (h : (run_systemctl_command env (instance_args command state_filter)).1 = false) :
    get_systemd_instances env command state_filter = []
    ∧ (command = str "list-unit-files" → state_filter = str "enabled" →
        ∀ sh ∈ get_shards env, sh.is_enabled = false)
    ∧ (command = str "list-units" → state_filter = str "active" →
        ∀ sh ∈ get_shards env, sh.is_running = false) := by
  have hempty : get_systemd_instances env command state_filter = [] := by
    simp only [get_systemd_instances, h]
    rfl
  refine ⟨hempty, ?_, ?_⟩ <;>
    · rintro rfl rfl sh hsh
      rw [get_shards_eq_map] at hsh
      simp only [List.mem_map] at hsh
      obtain ⟨nm, _, rfl⟩ := hsh
      simp [hempty]

/-- Witness for C6: with systemctl absent (`env0`), the enabled query
fails and the conclusions hold. -/
theorem C6_witness :
    (run_systemctl_command env0
        (instance_args (str "list-unit-files") (str "enabled"))).1 = false
    ∧ (get_systemd_instances env0 (str "list-unit-files") (str "enabled") = []
      ∧ (str "list-unit-files" = str "list-unit-files" → str "enabled" = str "enabled" →
          ∀ sh ∈ get_shards env0, sh.is_enabled = false)
      ∧ (str "list-unit-files" = str "list-units" → str "enabled" = str "active" →
          ∀ sh ∈ get_shards env0, sh.is_running = false)) :=
  ⟨by decide, C6_failed_query_degrades env0 (str "list-unit-files") (str "enabled") (by decide)⟩

/-- Claim C7: the fan-out loop `control_all_shards` performs exactly one
`control_shard` systemctl invocation per shard of the list, sequentially
in list order — the projection of its call trace is the list itself
mapped to `[action, unit]` argument pairs.  This holds for every
environment, in particular those where some of the per-shard actions
fail: a failure is returned as a value, never raised, so no later shard
is skipped (best-effort, not transactional). -/
theorem C7_fanout_once_per_shard (env : Env) (action : Str) (shard_list : List Shard) :
    (control_all_shards env action shard_list).map Prod.fst
      = shard_list.map (fun sh => [action, unit_name sh.name])
    ∧ (control_all_shards env action shard_list).length = shard_list.length := by
  have htrace : control_all_shards env action shard_list
      = shard_list.map (fun sh =>
          ([action, unit_name sh.name], control_shard env sh.name action)) := by
    simp only [control_all_shards]
    rw [foldl_append_map]
    simp
  rw [htrace]
  simp [List.map_map, Function.comp]

/-- Counterexample to claim C8 as stated: confirming the global update
cell while not busy (updater script present) produces the trace
`[popenUpdater, pollShards]` — the updater process is launched and the
snapshot re-polled immediately, with no wait on the process, so the run
is not "synchronously to completion" and the refresh precedes (rather
than follows) the updater's completion. -/
theorem C8_counterexample :
    execute_action env_with_updater stateOnUpdate
      = Except.ok (stateOnUpdate, [Effect.popenUpdater, Effect.pollShards])
    ∧ ¬ runs_updater_to_completion [Effect.popenUpdater, Effect.pollShards] := by
  decide

/-- Claim C8 (amended): confirming the global update action while
`busy == false` launches the updater inline on the main loop — no
background job is spawned — and immediately re-polls the snapshot before
returning, so the refresh is visible on the very next paint; but the
handler does not wait for the launched process (`subprocess.Popen`
returns at launch), so the run is not synchronous to completion and the
refresh reflects the state at launch time. -/
theorem C8_update_inline_no_wait (env : Env) (s : AppState)
    (hb : s.is_working = false) (hg : s.selected_global_action_idx = 5)
    (hu : run_updater env = Except.ok ()) :
    execute_action env s
      = Except.ok ({ s with shards := get_shards env },
          [Effect.popenUpdater, Effect.pollShards])
    ∧ (∀ a shs, Effect.spawnControlAll a shs
        ∉ ([Effect.popenUpdater, Effect.pollShards] : List Effect))
    ∧ (∀ nm a, Effect.spawnControlShard nm a
        ∉ ([Effect.popenUpdater, Effect.pollShards] : List Effect))
    ∧ Effect.waitUpdater ∉ ([Effect.popenUpdater, Effect.pollShards] : List Effect) := by
  refine ⟨?_, by simp, by simp, by simp⟩
  have h5 : pyGet global_actions (5 : Int) = Except.ok (str "update") := by decide
  simp [execute_action, hb, hg, h5, hu]

/-- Witness for C8 (amended): the update cell focused, not busy, the
updater script present. -/
theorem C8_witness :
    stateOnUpdate.is_working = false
    ∧ stateOnUpdate.selected_global_action_idx = 5
    ∧ run_updater env_with_updater = Except.ok ()
    ∧ (execute_action env_with_updater stateOnUpdate
        = Except.ok ({ stateOnUpdate with shards := get_shards env_with_updater },
            [Effect.popenUpdater, Effect.pollShards])
      ∧ (∀ a shs, Effect.spawnControlAll a shs
          ∉ ([Effect.popenUpdater, Effect.pollShards] : List Effect))
      ∧ (∀ nm a, Effect.spawnControlShard nm a
          ∉ ([Effect.popenUpdater, Effect.pollShards] : List Effect))
      ∧ Effect.waitUpdater ∉ ([Effect.popenUpdater, Effect.pollShards] : List Effect)) :=
  ⟨rfl, rfl, rfl, C8_update_inline_no_wait env_with_updater stateOnUpdate rfl rfl rfl⟩

/-- Claim C10: for any target other than `Master`, sending a chat
message — and likewise a raw console command — fails up front with an
explanatory message and performs no FIFO write (the write trace is
empty). -/
theorem C10_master_only (env : Env) (name message command : Str)
    (h : name ≠ str "Master") :
    send_chat_message env name message
      = ((false, str "Chat messages can only be sent to the Master shard."), [])
    ∧ send_command env name command
      = ((false, str "Commands can only be sent to the Master shard."), []) := by
  constructor <;> simp [send_chat_message, send_command, h]

/-- Witness for C10: the `Caves` shard as target. -/
theorem C10_witness :
    str "Caves" ≠ str "Master"
    ∧ (send_chat_message env0 (str "Caves") (str "hello")
        = ((false, str "Chat messages can only be sent to the Master shard."), [])
      ∧ send_command env0 (str "Caves") (str "c_rollback()")
        = ((false, str "Commands can only be sent to the Master shard."), [])) :=
  ⟨by decide, C10_master_only env0 (str "Caves") (str "hello") (str "c_rollback()") (by decide)⟩

/-- Counterexample to claim C9 as stated: with the updater script absent
from both locations (`env0`), confirming the global update cell makes
`run_updater` raise `FileNotFoundError`; nothing in `execute_action`,
`handle_main_input` or the `run` loop catches it, so the iteration ends
in an error — a termination path other than the quit key. -/
theorem C9_counterexample :
    run_step env0 stateOnUpdate Key.enter
      = Except.error (str "Updater script not found") := by
  decide

/-- An erroring `run_step` means the viewer was inactive and the error
came out of CONFIRM or the enable-toggle key — no other key's handling
can produce one. -/
theorem run_step_error_source (env : Env) (s : AppState) (k : Key) (e : Str)
    (h : run_step env s k = Except.error e) :
    s.log_viewer_active = false
    ∧ ((k = Key.enter ∧ execute_action env s = Except.error e)
      ∨ (k = Key.keyE ∧ execute_toggle_enable env s = Except.error e)) := by
  cases k <;>
    simp only [run_step, handle_main_input] at h <;>
    split_ifs at h <;>
    simp_all
  · rcases hex : execute_action env s with e' | pair <;> rw [hex] at h <;> simp_all
  · rcases hex : execute_toggle_enable env s with e' | pair <;> rw [hex] at h <;> simp_all

/-- An erroring `execute_action` was not busy and failed in exactly one
of: the global-action indexing, the inline updater run, the shard-row
indexing, or the per-shard action indexing. -/
theorem execute_action_error_source (env : Env) (s : AppState) (e : Str)
    (h : execute_action env s = Except.error e) :
    s.is_working = false
    ∧ ((s.selected_global_action_idx ≠ -1
          ∧ pyGet global_actions s.selected_global_action_idx = Except.error e)
      ∨ (s.selected_global_action_idx ≠ -1
          ∧ pyGet global_actions s.selected_global_action_idx = Except.ok (str "update")
          ∧ run_updater env = Except.error e)
      ∨ (s.selected_global_action_idx = -1 ∧ s.shards.isEmpty = false
          ∧ pyGet s.shards s.selected_shard_idx = Except.error e)
      ∨ (s.selected_global_action_idx = -1 ∧ s.shards.isEmpty = false
          ∧ (∃ sh, pyGet s.shards s.selected_shard_idx = Except.ok sh)
          ∧ pyGet shard_actions s.selected_action_idx = Except.error e)) := by
  simp only [execute_action] at h
  split_ifs at h with hb hg hemp
  · refine ⟨by simp_all, ?_⟩
    rcases hga : pyGet global_actions s.selected_global_action_idx with e2 | act <;>
      rw [hga] at h <;> dsimp only at h
    · simp only [Except.error.injEq] at h
      subst h
      exact Or.inl ⟨hg, rfl⟩
    · split_ifs at h with hupd
      · rcases hru : run_updater env with e3 | u
        · rw [hru] at h
          dsimp only at h
          simp only [Except.error.injEq] at h
          subst h
          exact Or.inr (Or.inl ⟨hg, by rw [hupd], rfl⟩)
        · rw [hru] at h
          dsimp only at h
          exact absurd h (by simp)
  · refine ⟨by simp_all, ?_⟩
    rcases hsh : pyGet s.shards s.selected_shard_idx with e2 | shard <;>
      rw [hsh] at h <;> dsimp only at h
    · simp only [Except.error.injEq] at h
      subst h
      exact Or.inr (Or.inr (Or.inl ⟨by simp_all, by simp_all, rfl⟩))
    · rcases hact : pyGet shard_actions s.selected_action_idx with e3 | act <;>
        rw [hact] at h <;> dsimp only at h
      · simp only [Except.error.injEq] at h
        subst h
        exact Or.inr (Or.inr (Or.inr ⟨by simp_all, by simp_all, ⟨shard, rfl⟩, rfl⟩))
      · split_ifs at h

/-- An erroring `execute_toggle_enable` was not busy, had the grid unset
and the shard list non-empty, and failed in the shard-row indexing. -/
theorem execute_toggle_enable_error_source (env : Env) (s : AppState) (e : Str)
    (h : execute_toggle_enable env s = Except.error e) :
    s.is_working = false ∧ s.selected_global_action_idx = -1
    ∧ s.shards.isEmpty = false
    ∧ pyGet s.shards s.selected_shard_idx = Except.error e := by
  simp only [execute_toggle_enable] at h
  split_ifs at h with hc
  simp only [not_or, Bool.not_eq_true, not_not] at hc
  rcases hsh : pyGet s.shards s.selected_shard_idx with e2 | shard <;>
    rw [hsh] at h <;> dsimp only at h
  · simp only [Except.error.injEq] at h
    subst h
    exact ⟨hc.1, hc.2.1, hc.2.2, rfl⟩
  · simp at h

/-- Claim C9 (amended): an exception propagates out of the input handler
and terminates the main loop only on these paths, all with the log
viewer inactive and no job in flight: CONFIRM with the global grid
focused, when the grid index is outside Python range of the 6-entry
action list (IndexError, dst_tui.py 218) or when the cell is `update`
and `run_updater` raises because the updater script is missing
(FileNotFoundError, manager.py 243); and CONFIRM or the enable-toggle
key with the grid unset and the shard list non-empty, when the
remembered `selected_shard_idx` is outside Python range of the current
shard list (IndexError, dst_tui.py 232/280) — a stale cursor left by a
refresh that shrank the list — or, the shard found, when the action
cursor is outside range of the 4-entry action list (IndexError,
dst_tui.py 234).  Every other key input in every state is handled
without an exception reaching the loop. -/
theorem C9_fatal_paths (env : Env) (s : AppState) (k : Key) (e : Str)
    (h : run_step env s k = Except.error e) :
    s.log_viewer_active = false ∧ s.is_working = false
    ∧ ((k = Key.enter ∧ s.selected_global_action_idx ≠ -1
          ∧ pyGet global_actions s.selected_global_action_idx = Except.error e)
      ∨ (k = Key.enter ∧ s.selected_global_action_idx ≠ -1
          ∧ pyGet global_actions s.selected_global_action_idx = Except.ok (str "update")
          ∧ run_updater env = Except.error e)
      ∨ (k = Key.enter ∧ s.selected_global_action_idx = -1
          ∧ s.shards.isEmpty = false
          ∧ pyGet s.shards s.selected_shard_idx = Except.error e)
      ∨ (k = Key.enter ∧ s.selected_global_action_idx = -1
          ∧ s.shards.isEmpty = false
          ∧ (∃ sh, pyGet s.shards s.selected_shard_idx = Except.ok sh)
          ∧ pyGet shard_actions s.selected_action_idx = Except.error e)
      ∨ (k = Key.keyE ∧ s.selected_global_action_idx = -1
          ∧ s.shards.isEmpty = false
          ∧ pyGet s.shards s.selected_shard_idx = Except.error e)) := by
  obtain ⟨hv, hsrc⟩ := run_step_error_source env s k e h
  rcases hsrc with ⟨rfl, hex⟩ | ⟨rfl, hex⟩
  · obtain ⟨hb, hpaths⟩ := execute_action_error_source env s e hex
    refine ⟨hv, hb, ?_⟩
    rcases hpaths with h1 | h2 | h3 | h4
    · exact Or.inl ⟨rfl, h1.1, h1.2⟩
    · exact Or.inr (Or.inl ⟨rfl, h2.1, h2.2.1, h2.2.2⟩)
    · exact Or.inr (Or.inr (Or.inl ⟨rfl, h3.1, h3.2.1, h3.2.2⟩))
    · exact Or.inr (Or.inr (Or.inr (Or.inl
        ⟨rfl, h4.1, h4.2.1, h4.2.2.1, h4.2.2.2⟩)))
  · obtain ⟨hb, hg, hne, hsh⟩ := execute_toggle_enable_error_source env s e hex
    exact ⟨hv, hb, Or.inr (Or.inr (Or.inr (Or.inr ⟨rfl, hg, hne, hsh⟩)))⟩

/-- Witness for C9 (amended): the stale-cursor input — row index 5 over
the two scenario shards — makes CONFIRM raise the IndexError. -/
theorem C9_witness :
    (run_step env0 stateStaleIdx Key.enter
        = Except.error (str "IndexError: list index out of range"))
    ∧ (stateStaleIdx.log_viewer_active = false ∧ stateStaleIdx.is_working = false
      ∧ ((Key.enter = Key.enter ∧ stateStaleIdx.selected_global_action_idx ≠ -1
            ∧ pyGet global_actions stateStaleIdx.selected_global_action_idx
              = Except.error (str "IndexError: list index out of range"))
        ∨ (Key.enter = Key.enter ∧ stateStaleIdx.selected_global_action_idx ≠ -1
            ∧ pyGet global_actions stateStaleIdx.selected_global_action_idx
              = Except.ok (str "update")
            ∧ run_updater env0
              = Except.error (str "IndexError: list index out of range"))
        ∨ (Key.enter = Key.enter ∧ stateStaleIdx.selected_global_action_idx = -1
            ∧ stateStaleIdx.shards.isEmpty = false
            ∧ pyGet stateStaleIdx.shards stateStaleIdx.selected_shard_idx
              = Except.error (str "IndexError: list index out of range"))
        ∨ (Key.enter = Key.enter ∧ stateStaleIdx.selected_global_action_idx = -1
            ∧ stateStaleIdx.shards.isEmpty = false
            ∧ (∃ sh, pyGet stateStaleIdx.shards stateStaleIdx.selected_shard_idx
                = Except.ok sh)
            ∧ pyGet shard_actions stateStaleIdx.selected_action_idx
              = Except.error (str "IndexError: list index out of range"))
        ∨ (Key.enter = Key.keyE ∧ stateStaleIdx.selected_global_action_idx = -1
            ∧ stateStaleIdx.shards.isEmpty = false
            ∧ pyGet stateStaleIdx.shards stateStaleIdx.selected_shard_idx
              = Except.error (str "IndexError: list index out of range")))) :=
  ⟨by decide,
    C9_fatal_paths env0 stateStaleIdx Key.enter
      (str "IndexError: list index out of range") (by decide)⟩

end DST
